import Mathlib

/-!
Verification of the order-fulfillment saga engine of the e-commerce
repository: a shallow embedding, in Lean, of the inventory engine
(`backend/shared/src/repositories/inventory-repository.ts`), the
idempotency service, the saga step handlers (reserve-inventory,
process-payment, allocate-shipping), the payment-webhook ingress, the
abandoned-cart reaper, the compensation handler and the admin
cancellation endpoint, together with theorems settling the spec claims
about them.

Conventions of the embedding:
- DynamoDB numbers are `Int`; an attribute that may be physically absent
  from a row is an `Option`.
- A conditional write is a function returning `Option`/`Except`; `none` /
  `.error` is a `ConditionalCheckFailedException` (or other throw) and the
  row is unchanged in that case.
- Handlers are embedded as pure functions of the state they read, in the
  sequential (single-writer) execution model: a re-read inside a handler
  observes the state the handler itself has produced so far.  Timestamp
  bookkeeping (`updatedAt`, `createdAt` strings) is elided except where a
  claim depends on it (the reaper uses epoch milliseconds).
-/

namespace ECom

/-- Inventory row as stored in the Inventory table.  `reserved` is
`Option Int` because legacy rows may lack the attribute
(`attribute_not_exists(reserved)` in the source's condition expressions);
a read defaults it to 0. -/
structure Inventory where
  quantity : Int
  reserved : Option Int
  version : Int
  deriving Repr, DecidableEq

/-- Reading of the `reserved` attribute with the backward-compatibility
default of 0 applied (inventory-repository.ts `get`, lines 82-85). -/
def reservedOf (inv : Inventory) : Int :=
  inv.reserved.getD 0

/-- Copy of an inventory row as returned by the repository `get`: the
`reserved` attribute is materialized to 0 when absent. -/
def getDefaulted (inv : Inventory) : Inventory :=
  { quantity := inv.quantity, reserved := some (reservedOf inv), version := inv.version }

/-- Intended per-row invariant from the spec data model (section 3):
reserved is non-negative and never exceeds quantity, a missing attribute
reading as 0. -/
def invariant (inv : Inventory) : Prop :=
  0 ≤ reservedOf inv ∧ reservedOf inv ≤ inv.quantity

instance (inv : Inventory) : Decidable (invariant inv) := by
  unfold invariant; infer_instance

/-- InventoryRepository.reserve (inventory-repository.ts lines 96-140).
Condition expression:
`version = :expectedVersion AND attribute_exists(PK) AND
 (attribute_not_exists(reserved) OR (quantity - reserved >= :qty))`;
update: `reserved = if_not_exists(reserved, 0) + qty, version += 1`.
`none` models a `ConditionalCheckFailedException` (surfaced as the
concurrency-conflict error); the row is untouched then. -/
def reserve : Option Inventory → Int → Int → Option Inventory
  | none, _, _ => none
  | some inv, qty, ev =>
    if inv.version = ev ∧ (inv.reserved = none ∨ qty ≤ inv.quantity - reservedOf inv) then
      some { quantity := inv.quantity, reserved := some (reservedOf inv + qty),
             version := inv.version + 1 }
    else
      none

/-- InventoryRepository.release (lines 145-187).  Condition:
`version = :expectedVersion AND attribute_exists(PK) AND
 (attribute_not_exists(reserved) OR reserved >= :qty)`;
update: `reserved = if_not_exists(reserved, 0) - qty, version += 1`. -/
def release : Option Inventory → Int → Int → Option Inventory
  | none, _, _ => none
  | some inv, qty, ev =>
    if inv.version = ev ∧ (inv.reserved = none ∨ qty ≤ reservedOf inv) then
      some { quantity := inv.quantity, reserved := some (reservedOf inv - qty),
             version := inv.version + 1 }
    else
      none

/-- InventoryRepository.confirmShipment (lines 192-234).  Identical
condition and update expressions to `release`; only the error message
differs in the source. -/
def confirmShipment : Option Inventory → Int → Int → Option Inventory
  | none, _, _ => none
  | some inv, qty, ev =>
    if inv.version = ev ∧ (inv.reserved = none ∨ qty ≤ reservedOf inv) then
      some { quantity := inv.quantity, reserved := some (reservedOf inv - qty),
             version := inv.version + 1 }
    else
      none

/-- InventoryRepository.restock (lines 239-278).  Condition:
`version = :expectedVersion`; update: `quantity += qty, version += 1`. -/
def restock : Option Inventory → Int → Int → Option Inventory
  | none, _, _ => none
  | some inv, qty, ev =>
    if inv.version = ev then
      some { quantity := inv.quantity + qty, reserved := inv.reserved,
             version := inv.version + 1 }
    else
      none

/-- Equation lemma: behavior of `reserve` on an existing row. -/
theorem reserve_some (inv : Inventory) (qty ev : Int) :
    reserve (some inv) qty ev =
      if inv.version = ev ∧ (inv.reserved = none ∨ qty ≤ inv.quantity - reservedOf inv) then
        some ⟨inv.quantity, some (reservedOf inv + qty), inv.version + 1⟩
      else none := rfl

/-- Equation lemma: behavior of `release` on an existing row. -/
theorem release_some (inv : Inventory) (qty ev : Int) :
    release (some inv) qty ev =
      if inv.version = ev ∧ (inv.reserved = none ∨ qty ≤ reservedOf inv) then
        some ⟨inv.quantity, some (reservedOf inv - qty), inv.version + 1⟩
      else none := rfl

/-- Success predicate for `reserve` as the C2 claim words it: the row
exists, its version equals the expected version, and
quantity − reserved ≥ qty with a missing reserved attribute read as 0.
Written from the spec sentence, to be compared with the source-derived
`reserve`. -/
def reserveSpecOk : Option Inventory → Int → Int → Bool
  | none, _, _ => false
  | some inv, qty, ev =>
    decide (inv.version = ev) && decide (qty ≤ inv.quantity - reservedOf inv)

/-- C1: the inventory invariants 0 ≤ reserved ≤ quantity are NOT preserved
by the engine on rows whose `reserved` attribute is absent: the condition
`attribute_not_exists(reserved) OR ...` short-circuits, so on the row
{quantity 5, reserved absent, version 0} a reserve of 10 succeeds and
leaves reserved = 10 > quantity = 5, and a release of 3 succeeds and
leaves reserved = −3 < 0.  This theorem evaluates the embedded source
operations at those failing inputs, exhibiting the code bug the claim's
invariant statement exposes. -/
theorem c1_legacy_row_invariant_violation :
    reserve (some ⟨5, none, 0⟩) 10 0 = some ⟨5, some 10, 1⟩ ∧
    ¬ invariant ⟨5, some 10, 1⟩ ∧
    release (some ⟨5, none, 0⟩) 3 0 = some ⟨5, some (-3), 1⟩ ∧
    ¬ invariant ⟨5, some (-3), 1⟩ ∧
    confirmShipment (some ⟨5, none, 0⟩) 3 0 = some ⟨5, some (-3), 1⟩ := by
  decide

/-- C2 counterexample: the claim's success predicate (quantity − reserved
≥ qty, missing reserved read as 0) is false on the row
{quantity 5, reserved absent, version 0} with qty 10, yet the source's
reserve succeeds there, because its condition expression skips the stock
check whenever the reserved attribute is absent. -/
theorem c2_reserve_predicate_counterexample :
    reserveSpecOk (some ⟨5, none, 0⟩) 10 0 = false ∧
    reserve (some ⟨5, none, 0⟩) 10 0 ≠ none := by
  decide

/-- C2 (amended): reserve(qty, expectedVersion) succeeds exactly when the
row exists, its version equals expectedVersion, and EITHER the reserved
attribute is absent (no stock check at all) OR quantity − reserved ≥ qty;
on success it sets reserved := (reserved, absent read as 0) + qty and
version += 1; otherwise it fails with the concurrency-conflict error and
writes nothing. -/
theorem c2_reserve_characterization (inv : Inventory) (qty ev : Int) :
    reserve none qty ev = none ∧
    (reserve (some inv) qty ev ≠ none ↔
      inv.version = ev ∧ (inv.reserved = none ∨ qty ≤ inv.quantity - reservedOf inv)) ∧
    (inv.version = ev → (inv.reserved = none ∨ qty ≤ inv.quantity - reservedOf inv) →
      reserve (some inv) qty ev =
        some ⟨inv.quantity, some (reservedOf inv + qty), inv.version + 1⟩) := by
  refine ⟨rfl, ?_, ?_⟩
  · rw [reserve_some]
    by_cases h : inv.version = ev ∧ (inv.reserved = none ∨ qty ≤ inv.quantity - reservedOf inv)
    · rw [if_pos h]; simp [h]
    · rw [if_neg h]; simp [h]
  · intro h1 h2
    rw [reserve_some, if_pos ⟨h1, h2⟩]

/-- Witness for c2_reserve_characterization at a concrete row. -/
theorem c2_reserve_characterization_witness :
    reserve (some ⟨10, some 2, 7⟩) 3 7 = some ⟨10, some 5, 8⟩ :=
  (c2_reserve_characterization ⟨10, some 2, 7⟩ 3 7).2.2 rfl (Or.inr (by decide))

/-! ## Idempotency service (IdempotencyService, services/idempotency-service source) -/

/-- Status of an idempotency row. -/
inductive IdemStatus
  | inProgress
  | completed
  | failed
  deriving Repr, DecidableEq

/-- Idempotency row: status plus the cached serialized result (present
only once markCompleted has run). -/
structure IdemRow (α : Type) where
  status : IdemStatus
  result : Option α
  deriving Repr, DecidableEq

/-- Errors thrown by markInProgress when the conditional insert collides
with an existing row. -/
inductive IdemErr
  | alreadyCompleted
  | alreadyInProgress
  deriving Repr, DecidableEq

/-- IdempotencyService.markInProgress (lines 57-100): conditional insert
of an IN_PROGRESS row under attribute_not_exists; on collision it
re-reads the row and throws for COMPLETED / IN_PROGRESS, while for FAILED
it merely returns, leaving the FAILED row in place (the source neither
deletes nor recreates it).  The argument is the row present at the
insert, which in the sequential model is also what the re-read sees; the
`.ok` payload is the row state after the call. -/
def markInProgress {α : Type} (existing : Option (IdemRow α)) :
    Except IdemErr (Option (IdemRow α)) :=
  match existing with
  | none => .ok (some ⟨.inProgress, none⟩)
  | some r =>
    match r.status with
    | .completed => .error .alreadyCompleted
    | .inProgress => .error .alreadyInProgress
    | .failed => .ok (some r)

/-- Observable outcome of one executeOnce call. `cached` means the stored
result was returned without invoking fn; `ranOk` / `ranFailed` mean fn was
invoked (and the row was then marked COMPLETED / FAILED); the two `err`
outcomes are the errors thrown out of markInProgress. -/
inductive ExecOutcome (α : Type)
  | cached (result : Option α)
  | ranOk (value : α)
  | ranFailed
  | errCompleted
  | errInProgress
  deriving Repr, DecidableEq

/-- IdempotencyService.executeOnce (lines 154-182).  `rowAtCheck` is the
row the initial check reads; `rowAtInsert` is the row present when the
conditional insert of markInProgress runs (the two can differ when a
concurrent caller writes in between).  `fnRes` models the invocation of
fn: `some v` when fn returns v, `none` when fn throws. -/
def executeOnce {α : Type} (rowAtCheck rowAtInsert : Option (IdemRow α))
    (fnRes : Option α) : ExecOutcome α :=
  match rowAtCheck with
  | some ⟨.completed, res⟩ => .cached res
  | _ =>
    match markInProgress rowAtInsert with
    | .error .alreadyCompleted => .errCompleted
    | .error .alreadyInProgress => .errInProgress
    | .ok _ =>
      match fnRes with
      | some v => .ranOk v
      | none => .ranFailed

/-- Helper: when the initial check did not see a COMPLETED row,
executeOnce proceeds to the conditional insert and runs fn on `.ok`. -/
theorem executeOnce_not_completed {α : Type}
    (rowAtCheck rowAtInsert : Option (IdemRow α)) (fnRes : Option α)
    (hc : ∀ r', rowAtCheck = some r' → r'.status ≠ .completed) :
    executeOnce rowAtCheck rowAtInsert fnRes =
      match markInProgress rowAtInsert with
      | .error .alreadyCompleted => .errCompleted
      | .error .alreadyInProgress => .errInProgress
      | .ok _ =>
        match fnRes with
        | some v => .ranOk v
        | none => .ranFailed := by
  match rowAtCheck with
  | none => rfl
  | some ⟨.completed, res⟩ => exact absurd rfl (hc ⟨.completed, res⟩ rfl)
  | some ⟨.inProgress, res⟩ => rfl
  | some ⟨.failed, res⟩ => rfl

/-- C3 counterexample: when the conditional insert fails because a
COMPLETED row appeared after the initial check, executeOnce does NOT
return the stored cached result — markInProgress throws the
operation-already-completed error instead, and executeOnce propagates it. -/
theorem c3_completed_collision_counterexample :
    executeOnce (none : Option (IdemRow Nat)) (some ⟨.completed, some 42⟩) (some 7) =
      .errCompleted ∧
    executeOnce (none : Option (IdemRow Nat)) (some ⟨.completed, some 42⟩) (some 7) ≠
      .cached (some 42) := by
  decide

/-- C3 (amended): when executeOnce's conditional insert of the
IN_PROGRESS row collides with an existing row (and the initial check did
not already see COMPLETED): for a COMPLETED row the call fails with the
operation-already-completed error (the cached result is returned only by
the earlier check, never on this path); for IN_PROGRESS it fails with the
concurrent-in-progress error; for FAILED it proceeds to invoke fn (retry
is allowed). -/
theorem c3_insert_collision_behavior {α : Type}
    (rowAtCheck : Option (IdemRow α)) (fnRes : Option α)
    (hc : ∀ r', rowAtCheck = some r' → r'.status ≠ .completed) :
    (∀ res, executeOnce rowAtCheck (some ⟨.completed, res⟩) fnRes = .errCompleted) ∧
    (∀ res, executeOnce rowAtCheck (some ⟨.inProgress, res⟩) fnRes = .errInProgress) ∧
    (∀ res, executeOnce rowAtCheck (some ⟨.failed, res⟩) fnRes =
      match fnRes with
      | some v => .ranOk v
      | none => .ranFailed) := by
  refine ⟨fun res => ?_, fun res => ?_, fun res => ?_⟩ <;>
    rw [executeOnce_not_completed _ _ _ hc] <;> rfl

/-- Witness for c3_insert_collision_behavior: the IN_PROGRESS collision at
a concrete state. -/
theorem c3_insert_collision_behavior_witness :
    executeOnce (none : Option (IdemRow Nat)) (some ⟨.inProgress, none⟩) (some 5) =
      .errInProgress :=
  (c3_insert_collision_behavior (none : Option (IdemRow Nat)) (some 5)
    (fun _ h => Option.noConfusion h)).2.1 none

/-! ## Order data model (shared/src/types/index.ts) -/

/-- OrderStatus enum of the source. -/
inductive OrderStatus
  | pending
  | inventoryReserved
  | paymentProcessing
  | paymentConfirmed
  | shippingAllocated
  | shipped
  | delivered
  | cancelled
  | failed
  deriving Repr, DecidableEq

/-- Payment sub-status stored on the order (paymentStatus attribute). -/
inductive PaymentStatus
  | pending
  | succeeded
  | failed
  | refunded
  | canceled
  deriving Repr, DecidableEq

/-- Item of an order.  `warehouseId` is filled in by the
reserve-inventory step. -/
structure OrderItem where
  productId : String
  productName : String
  quantity : Int
  pricePerUnit : Int
  totalPrice : Int
  warehouseId : Option String
  deriving Repr, DecidableEq

/-- The metadata extension points the core writes (`metadata` is an open
JSON bag in the source; only these keys are touched by the embedded
handlers). -/
structure OrderMetadata where
  cancelReason : Option String
  cancelledBy : Option String
  reminderEmailSent : Bool
  deriving Repr, DecidableEq

/-- Order row.  `estimatedDelivery` exists in the embedding so that the
C7 persistence question can be stated; the source Order interface does
not even declare such an attribute and no handler writes it.
`createdAtMs` is the creation instant in epoch milliseconds (the source
stores an ISO string and the reaper converts it with Date). -/
structure Order where
  orderId : String
  status : OrderStatus
  items : List OrderItem
  totalAmount : Int
  paymentIntentId : Option String
  paymentStatus : Option PaymentStatus
  trackingNumber : Option String
  estimatedDelivery : Option Int
  createdAtMs : Int
  metadata : OrderMetadata
  deriving Repr, DecidableEq

/-- Payment intent as retrieved from the payment provider. -/
structure PaymentIntent where
  id : String
  status : String
  amount : Int
  deriving Repr, DecidableEq

/-! ## VerifyPayment step (stepfunctions/process-payment/index.ts) -/

/-- Value cached under the idempotency key by a successful payment
verification (paymentId and amount of the verified intent). -/
structure PaymentVerification where
  paymentId : String
  amount : Int
  deriving Repr, DecidableEq

/-- Closure passed to executeOnce by process-payment (lines 60-114):
requires a paymentIntentId on the order, retrieves the intent from the
provider (`getIntent`, `none` modelling a provider error), then asserts
status is the string succeeded and that the amount equals the order's
totalAmount.  `none` is a throw. -/
def verifyPaymentFn (order : Order) (getIntent : String → Option PaymentIntent) :
    Option PaymentVerification :=
  match order.paymentIntentId with
  | none => none
  | some pid =>
    match getIntent pid with
    | none => none
    | some pi =>
      if pi.status = "succeeded" then
        if pi.amount = order.totalAmount then some ⟨pi.id, pi.amount⟩ else none
      else none

/-- VerifyPayment handler (lines 36-134), sequential model.  The handler
reads the order, requires status INVENTORY_RESERVED, runs the
verification closure under the idempotency key, and only then performs
its single Orders-table write, setting status PAYMENT_CONFIRMED.  `.ok`
carries the written order row and the verification value; `.error` is a
throw, in which case the handler has made no Orders-table write, so the
row is unchanged.  A cached COMPLETED row with a missing result produces
the undefined-result junk value of the source (`existing.result as T`). -/
def processPayment (order? : Option Order)
    (idemRow : Option (IdemRow PaymentVerification))
    (getIntent : String → Option PaymentIntent) :
    Except String (Order × PaymentVerification) :=
  match order? with
  | none => .error "Order not found"
  | some order =>
    if order.status ≠ OrderStatus.inventoryReserved then
      .error "Order must be in INVENTORY_RESERVED status"
    else
      match executeOnce idemRow idemRow (verifyPaymentFn order getIntent) with
      | .cached (some v) => .ok ({ order with status := .paymentConfirmed }, v)
      | .cached none => .ok ({ order with status := .paymentConfirmed }, ⟨"", 0⟩)
      | .ranOk v => .ok ({ order with status := .paymentConfirmed }, v)
      | .ranFailed => .error "Payment verification failed"
      | .errCompleted => .error "Operation already completed"
      | .errInProgress => .error "Operation already in progress"

/-- Idempotency state under which fn actually runs: no row yet, or a
FAILED row (retry allowed). -/
def idemFresh {α : Type} (row : Option (IdemRow α)) : Prop :=
  row = none ∨ ∃ res, row = some ⟨.failed, res⟩

/-- Helper: under a fresh idempotency row, executeOnce reduces to running
fn. -/
theorem executeOnce_fresh {α : Type} (row : Option (IdemRow α)) (fnRes : Option α)
    (h : idemFresh row) :
    executeOnce row row fnRes =
      match fnRes with
      | some v => ExecOutcome.ranOk v
      | none => ExecOutcome.ranFailed := by
  rcases h with h | ⟨res, h⟩ <;> subst h <;> rfl

/-- C4: for an order in INVENTORY_RESERVED holding a paymentIntentId,
under a fresh idempotency row the VerifyPayment step writes
PAYMENT_CONFIRMED if and only if the provider's intent has status
succeeded and amount equal to the order's totalAmount; on any mismatch it
throws, and a throw makes no Orders-table write, leaving the status
unchanged. -/
theorem c4_verify_payment_iff (order : Order)
    (idemRow : Option (IdemRow PaymentVerification))
    (getIntent : String → Option PaymentIntent) (pid : String)
    (h1 : order.status = .inventoryReserved)
    (h2 : order.paymentIntentId = some pid)
    (h3 : idemFresh idemRow) :
    ((∃ o' v, processPayment (some order) idemRow getIntent = .ok (o', v) ∧
        o'.status = .paymentConfirmed) ↔
      (∃ pi, getIntent pid = some pi ∧ pi.status = "succeeded" ∧
        pi.amount = order.totalAmount)) ∧
    ((¬ ∃ pi, getIntent pid = some pi ∧ pi.status = "succeeded" ∧
        pi.amount = order.totalAmount) →
      ∃ e, processPayment (some order) idemRow getIntent = .error e) := by
  have hred : processPayment (some order) idemRow getIntent =
      match verifyPaymentFn order getIntent with
      | some v => .ok ({ order with status := .paymentConfirmed }, v)
      | none => .error "Payment verification failed" := by
    show (if order.status ≠ OrderStatus.inventoryReserved then _ else _) = _
    rw [if_neg (by simp [h1])]
    rw [executeOnce_fresh _ _ h3]
    cases verifyPaymentFn order getIntent <;> rfl
  have hnone : getIntent pid = none → verifyPaymentFn order getIntent = none := by
    intro hg
    simp only [verifyPaymentFn, h2, hg]
  have hfn : ∀ pi, getIntent pid = some pi →
      verifyPaymentFn order getIntent =
        if pi.status = "succeeded" then
          if pi.amount = order.totalAmount then some ⟨pi.id, pi.amount⟩ else none
        else none := by
    intro pi hg
    simp only [verifyPaymentFn, h2, hg]
  constructor
  · constructor
    · rintro ⟨o', v, hok, -⟩
      rw [hred] at hok
      cases hg : getIntent pid with
      | none => rw [hnone hg] at hok; exact absurd hok (by simp)
      | some pi =>
        rw [hfn pi hg] at hok
        by_cases hs : pi.status = "succeeded"
        · by_cases ha : pi.amount = order.totalAmount
          · exact ⟨pi, rfl, hs, ha⟩
          · rw [if_pos hs, if_neg ha] at hok
            exact absurd hok (by simp)
        · rw [if_neg hs] at hok
          exact absurd hok (by simp)
    · rintro ⟨pi, hg, hs, ha⟩
      refine ⟨{ order with status := .paymentConfirmed }, ⟨pi.id, pi.amount⟩, ?_, rfl⟩
      rw [hred, hfn pi hg, if_pos hs, if_pos ha]
  · intro hno
    rw [hred]
    cases hg : getIntent pid with
    | none => rw [hnone hg]; exact ⟨_, rfl⟩
    | some pi =>
      rw [hfn pi hg]
      by_cases hs : pi.status = "succeeded"
      · by_cases ha : pi.amount = order.totalAmount
        · exact absurd ⟨pi, hg, hs, ha⟩ hno
        · rw [if_pos hs, if_neg ha]
          exact ⟨_, rfl⟩
      · rw [if_neg hs]
        exact ⟨_, rfl⟩

/-- Order used to instantiate witnesses: one item, totalAmount 3998,
INVENTORY_RESERVED with a pending payment and a payment intent. -/
def sampleReservedOrder : Order :=
  { orderId := "O1"
    status := .inventoryReserved
    items := [⟨"P1", "Widget", 2, 1999, 3998, some "warehouse-east"⟩]
    totalAmount := 3998
    paymentIntentId := some "pi_1"
    paymentStatus := some .pending
    trackingNumber := none
    estimatedDelivery := none
    createdAtMs := 0
    metadata := ⟨none, none, false⟩ }

/-- Provider lookup used by witnesses: intent pi_1 succeeded at amount
3998. -/
def sampleGetIntent : String → Option PaymentIntent :=
  fun pid => if pid = "pi_1" then some ⟨"pi_1", "succeeded", 3998⟩ else none

/-- Witness for c4_verify_payment_iff at a concrete succeeded intent. -/
theorem c4_verify_payment_iff_witness :
    ∃ o' v, processPayment (some sampleReservedOrder) none sampleGetIntent = .ok (o', v) ∧
      o'.status = .paymentConfirmed :=
  (c4_verify_payment_iff sampleReservedOrder none sampleGetIntent "pi_1" rfl rfl
    (Or.inl rfl)).1.mpr ⟨⟨"pi_1", "succeeded", 3998⟩, by simp [sampleGetIntent], rfl, rfl⟩

/-! ## Webhook ingress (api/stripe-webhook/index.ts) -/

/-- Modelled from the spec: OrderRepository.updatePaymentInfo is invoked
by the webhook and admin-cancel handlers but is absent from the
repository source in the repo; section 4.5 describes its effect as
persisting paymentIntentId, paymentStatus (and paymentMethod, which the
embedding elides).  It does not touch the order status. -/
def updatePaymentInfo (o : Order) (pid : Option String) (ps : PaymentStatus) : Order :=
  { o with paymentIntentId := pid.orElse (fun _ => o.paymentIntentId),
           paymentStatus := some ps }

/-- State observed and mutated by the webhook ingress: the order row
(none when the order does not exist) and how many saga executions have
been started. -/
structure IngressState where
  order : Option Order
  sagaStarts : Nat
  deriving Repr, DecidableEq

/-- handlePaymentSucceeded (lines 139-217): one delivery of a
payment_intent.succeeded event whose intent id is `pid`, sequential
model.  A missing order throws (caught by the outer handler); a status
other than PENDING is treated as a duplicate delivery: no write, no saga
start.  Otherwise the payment info is persisted on the order and exactly
one new saga execution is started. -/
def handlePaymentSucceeded (pid : String) (s : IngressState) : IngressState :=
  match s.order with
  | none => s
  | some o =>
    if o.status ≠ OrderStatus.pending then s
    else
      { order := some (updatePaymentInfo o (some pid) .succeeded),
        sagaStarts := s.sagaStarts + 1 }

/-- Iterated redeliveries of the same event with no intervening saga
activity. -/
def deliverN (pid : String) : Nat → IngressState → IngressState
  | 0, s => s
  | n + 1, s => deliverN pid n (handlePaymentSucceeded pid s)

/-- Order as created by the order-creation collaborator: PENDING with a
pending payment and no intent yet. -/
def samplePendingOrder : Order :=
  { orderId := "O1"
    status := .pending
    items := [⟨"P1", "Widget", 2, 1999, 3998, none⟩]
    totalAmount := 3998
    paymentIntentId := none
    paymentStatus := some .pending
    trackingNumber := none
    estimatedDelivery := none
    createdAtMs := 0
    metadata := ⟨none, none, false⟩ }

/-- C5 counterexample: the ingress itself never moves the order out of
PENDING (updatePaymentInfo only writes payment fields), so two deliveries
of the same payment_intent.succeeded event with no intervening saga step
start the saga twice — not exactly once as the claim states. -/
theorem c5_replay_counterexample :
    (deliverN "pi_1" 2 ⟨some samplePendingOrder, 0⟩).sagaStarts = 2 ∧
    (handlePaymentSucceeded "pi_1" ⟨some samplePendingOrder, 0⟩).order.map Order.status =
      some OrderStatus.pending := by
  decide

/-- C5 (amended): a delivery that observes status ≠ PENDING is a no-op —
no write and no saga start — so any number of redeliveries after the
order has left PENDING (which only the saga's first step does) leaves the
state unchanged; but the processing of a PENDING order persists payment
info WITHOUT changing the status, so the duplicate guard only takes
effect once the saga has advanced the order. -/
theorem c5_duplicate_guard (pid : String) (o : Order) (n : Nat) (k : Nat)
    (h : o.status ≠ .pending) :
    deliverN pid k ⟨some o, n⟩ = ⟨some o, n⟩ ∧
    (∀ o' : Order, o'.status = .pending →
      handlePaymentSucceeded pid ⟨some o', n⟩ =
        ⟨some (updatePaymentInfo o' (some pid) .succeeded), n + 1⟩ ∧
      (updatePaymentInfo o' (some pid) .succeeded).status = .pending) := by
  have hstep : handlePaymentSucceeded pid ⟨some o, n⟩ = ⟨some o, n⟩ := by
    show (if o.status ≠ OrderStatus.pending then _ else _) = _
    rw [if_pos h]
  constructor
  · induction k with
    | zero => rfl
    | succ k ih =>
      show deliverN pid k (handlePaymentSucceeded pid ⟨some o, n⟩) = _
      rw [hstep, ih]
  · intro o' h'
    constructor
    · show (if o'.status ≠ OrderStatus.pending then _ else _) = _
      rw [if_neg (by simp [h'])]
    · show o'.status = .pending
      exact h'

/-- Witness for c5_duplicate_guard: redelivering three times to a
reserved order changes nothing. -/
theorem c5_duplicate_guard_witness :
    deliverN "pi_1" 3 ⟨some sampleReservedOrder, 1⟩ = ⟨some sampleReservedOrder, 1⟩ :=
  (c5_duplicate_guard "pi_1" sampleReservedOrder 1 3 (by decide)).1

/-! ## AllocateShipping step (stepfunctions/allocate-shipping/index.ts) -/

/-- Carrier table of allocate-shipping (line 59). -/
def carriers : List String := ["USPS", "FedEx", "UPS"]

/-- Step output of allocate-shipping.  Dates are day numbers; the source
renders them as ISO date strings. -/
structure ShippingAllocation where
  trackingNumber : String
  carrier : String
  estimatedDeliveryDay : Int
  deriving Repr, DecidableEq

/-- allocate-shipping handler (lines 29-94), sequential model.
Randomness enters through `carrierIdx` (the Math.random carrier pick),
`rand` (the Math.floor(Math.random()*1000) suffix, rendered in decimal
without padding), and `deliveryRand` (the 0..2 extra delivery days);
`nowMs` is Date.now().  `.ok` carries the step output and the written
order row; the single Orders-table update sets only the status (and
updatedAt): the tracking number and delivery date are returned but never
persisted. -/
def allocateShipping (order? : Option Order) (carrierIdx : Fin 3) (nowMs : Nat)
    (rand : Fin 1000) (deliveryRand : Fin 3) (todayDay : Int) :
    Except String (ShippingAllocation × Order) :=
  match order? with
  | none => .error "Order not found"
  | some order =>
    if order.status ≠ OrderStatus.paymentConfirmed then
      .error "Order must be in PAYMENT_CONFIRMED status"
    else
      .ok (⟨(carriers.get ⟨carrierIdx.val, carrierIdx.isLt⟩).toUpper.take 2 ++
              toString nowMs ++ toString rand.val,
            carriers.get ⟨carrierIdx.val, carrierIdx.isLt⟩,
            todayDay + 3 + (deliveryRand.val : Int)⟩,
           { order with status := .shippingAllocated })

/-- Order that has passed payment verification. -/
def samplePaidOrder : Order :=
  { sampleReservedOrder with status := .paymentConfirmed, paymentStatus := some .succeeded }

/-- C7 counterexample: on a PAYMENT_CONFIRMED order the step succeeds but
the written order row carries no tracking number and no estimated
delivery — only the status is persisted, so the claimed persistence of
both fields is false.  The random suffix 7 also renders as one digit, not
three. -/
theorem c7_no_persistence_counterexample :
    (allocateShipping (some samplePaidOrder) ⟨0, by decide⟩ 1700000000000 ⟨7, by decide⟩
        ⟨1, by decide⟩ 20000).toOption.map
        (fun p => (p.2.trackingNumber, p.2.estimatedDelivery, p.2.status,
                   p.1.estimatedDeliveryDay)) =
      some (none, none, OrderStatus.shippingAllocated, 20004) := by
  rfl

/-- C7 (amended): on a PAYMENT_CONFIRMED order the step mints a tracking
identifier {two-letter carrier prefix}{epoch-ms}{random 0..999 in
decimal, unpadded}, a carrier from {USPS, FedEx, UPS} and an estimated
delivery of today + 3..5 days, returns them in its output, and
transitions the order to SHIPPING_ALLOCATED; the tracking identifier and
estimated delivery are not written to the order row. -/
theorem c7_allocate_shipping (order : Order) (carrierIdx : Fin 3) (nowMs : Nat)
    (rand : Fin 1000) (deliveryRand : Fin 3) (todayDay : Int)
    (h : order.status = .paymentConfirmed) :
    ∃ alloc o',
      allocateShipping (some order) carrierIdx nowMs rand deliveryRand todayDay =
        .ok (alloc, o') ∧
      alloc.carrier ∈ carriers ∧
      alloc.trackingNumber =
        alloc.carrier.toUpper.take 2 ++ toString nowMs ++ toString rand.val ∧
      todayDay + 3 ≤ alloc.estimatedDeliveryDay ∧
      alloc.estimatedDeliveryDay ≤ todayDay + 5 ∧
      o'.status = .shippingAllocated ∧
      o'.trackingNumber = order.trackingNumber ∧
      o'.estimatedDelivery = order.estimatedDelivery := by
  refine ⟨⟨(carriers.get ⟨carrierIdx.val, carrierIdx.isLt⟩).toUpper.take 2 ++
             toString nowMs ++ toString rand.val,
           carriers.get ⟨carrierIdx.val, carrierIdx.isLt⟩,
           todayDay + 3 + (deliveryRand.val : Int)⟩,
         { order with status := .shippingAllocated }, ?_, ?_, rfl, ?_, ?_, rfl, rfl, rfl⟩
  · show (if order.status ≠ OrderStatus.paymentConfirmed then _ else _) = _
    rw [if_neg (by simp [h])]
  · exact List.get_mem carriers carrierIdx.val carrierIdx.isLt
  · show todayDay + 3 ≤ todayDay + 3 + (deliveryRand.val : Int)
    omega
  · show todayDay + 3 + (deliveryRand.val : Int) ≤ todayDay + 5
    have := deliveryRand.isLt
    omega

/-- Witness for c7_allocate_shipping at a concrete order and randomness. -/
theorem c7_allocate_shipping_witness :
    ∃ alloc o',
      allocateShipping (some samplePaidOrder) ⟨2, by decide⟩ 5 ⟨0, by decide⟩
          ⟨0, by decide⟩ 100 = .ok (alloc, o') ∧
      alloc.carrier ∈ carriers ∧
      alloc.trackingNumber = alloc.carrier.toUpper.take 2 ++ toString 5 ++ toString 0 ∧
      (100 : Int) + 3 ≤ alloc.estimatedDeliveryDay ∧
      alloc.estimatedDeliveryDay ≤ (100 : Int) + 5 ∧
      o'.status = .shippingAllocated ∧
      o'.trackingNumber = samplePaidOrder.trackingNumber ∧
      o'.estimatedDelivery = samplePaidOrder.estimatedDelivery :=
  c7_allocate_shipping samplePaidOrder ⟨2, by decide⟩ 5 ⟨0, by decide⟩ ⟨0, by decide⟩ 100 rfl

/-! ## Inventory table

The Inventory table as an association list from (productId, warehouseId)
to the stored row; list order models the deterministic iteration order of
the productId secondary index. -/

/-- Inventory table contents. -/
def InvStore : Type := List ((String × String) × Inventory)

instance : DecidableEq InvStore := by
  unfold InvStore; infer_instance

/-- Point read of the table. -/
def lookupInv (s : InvStore) (k : String × String) : Option Inventory :=
  (s.find? (fun e => decide (e.1 = k))).map (fun e => e.2)

/-- Point overwrite of an existing row (conditional updates only ever
touch rows that exist). -/
def setInv (s : InvStore) (k : String × String) (v : Inventory) : InvStore :=
  s.map (fun e => if e.1 = k then (k, v) else e)

/-- Equation lemma for lookupInv on a cons cell. -/
theorem lookupInv_cons (e : (String × String) × Inventory) (rest : InvStore)
    (k : String × String) :
    lookupInv (e :: rest) k = if e.1 = k then some e.2 else lookupInv rest k := by
  by_cases h : e.1 = k
  · show (List.find? _ (e :: rest)).map _ = _
    rw [List.find?_cons_of_pos _ (by simpa using h), if_pos h]
    rfl
  · show (List.find? _ (e :: rest)).map _ = _
    rw [List.find?_cons_of_neg _ (by simpa using h), if_neg h]
    rfl

/-- Writing one key leaves every other key unchanged. -/
theorem lookupInv_set_ne (s : InvStore) (k k' : String × String) (v : Inventory)
    (h : k' ≠ k) :
    lookupInv (setInv s k v) k' = lookupInv s k' := by
  induction s with
  | nil => rfl
  | cons e rest ih =>
    show lookupInv ((if e.1 = k then (k, v) else e) :: setInv rest k v) k' = _
    rw [lookupInv_cons, lookupInv_cons]
    by_cases he : e.1 = k
    · rw [if_pos he]
      rw [if_neg (show ¬ ((k, v).1 = k') from fun hh => h hh.symm)]
      rw [if_neg (fun hh => h (by rw [← hh]; exact he))]
      exact ih
    · rw [if_neg he]
      by_cases he' : e.1 = k'
      · rw [if_pos he', if_pos he']
      · rw [if_neg he', if_neg he']
        exact ih

/-- Writing an existing key makes the lookup return the new value. -/
theorem lookupInv_set_self (s : InvStore) (k : String × String) (v inv0 : Inventory)
    (h : lookupInv s k = some inv0) :
    lookupInv (setInv s k v) k = some v := by
  induction s with
  | nil => exact absurd h (by simp [lookupInv])
  | cons e rest ih =>
    rw [lookupInv_cons] at h
    show lookupInv ((if e.1 = k then (k, v) else e) :: setInv rest k v) k = some v
    by_cases he : e.1 = k
    · rw [if_pos he] at h ⊢
      rw [lookupInv_cons, if_pos rfl]
    · rw [if_neg he] at h ⊢
      rw [lookupInv_cons, if_neg he]
      exact ih h

/-- Table key an order item points at, when it carries a warehouseId. -/
def itemKey (it : OrderItem) : Option (String × String) :=
  it.warehouseId.map (fun w => (it.productId, w))

/-- Release loop body shared by the reaper (cleanup-abandoned-carts lines
213-260) and the admin cancellation (admin-cancel-order lines 123-153):
skip the item when it has no warehouseId or no inventory row; otherwise
re-read the row for a fresh version and call the repository release; a
failed conditional check is caught and the loop continues. -/
def releaseItem (s : InvStore) (it : OrderItem) : InvStore :=
  match it.warehouseId with
  | none => s
  | some w =>
    match lookupInv s (it.productId, w) with
    | none => s
    | some inv =>
      match release (some inv) it.quantity inv.version with
      | none => s
      | some inv' => setInv s (it.productId, w) inv'

/-- Sequential release of every item of an order. -/
def releaseItems (s : InvStore) : List OrderItem → InvStore
  | [] => s
  | it :: rest => releaseItems (releaseItem s it) rest

/-- Equation lemma: releaseItem on an item that carries a warehouseId. -/
theorem releaseItem_some (s : InvStore) (it : OrderItem) (w : String)
    (hw : it.warehouseId = some w) :
    releaseItem s it =
      match lookupInv s (it.productId, w) with
      | none => s
      | some inv =>
        match release (some inv) it.quantity inv.version with
        | none => s
        | some inv' => setInv s (it.productId, w) inv' := by
  unfold releaseItem
  rw [hw]

/-- Releasing an item does not touch rows at other keys. -/
theorem releaseItem_lookup_ne (s : InvStore) (it : OrderItem) (k : String × String)
    (h : ∀ w, it.warehouseId = some w → (it.productId, w) ≠ k) :
    lookupInv (releaseItem s it) k = lookupInv s k := by
  cases hw : it.warehouseId with
  | none => unfold releaseItem; rw [hw]
  | some w =>
    rw [releaseItem_some s it w hw]
    cases hlk : lookupInv s (it.productId, w) with
    | none => rfl
    | some inv =>
      show lookupInv
          (match release (some inv) it.quantity inv.version with
           | none => s
           | some inv' => setInv s (it.productId, w) inv') k = lookupInv s k
      cases hrel : release (some inv) it.quantity inv.version with
      | none => rfl
      | some inv' => exact lookupInv_set_ne s (it.productId, w) k inv' (fun hh => h w hw hh.symm)

/-- Releasing a list of items does not touch rows at keys none of the
items point at. -/
theorem releaseItems_lookup_ne (items : List OrderItem) (s : InvStore)
    (k : String × String)
    (h : ∀ it ∈ items, ∀ w, it.warehouseId = some w → (it.productId, w) ≠ k) :
    lookupInv (releaseItems s items) k = lookupInv s k := by
  induction items generalizing s with
  | nil => rfl
  | cons it0 rest ih =>
    show lookupInv (releaseItems (releaseItem s it0) rest) k = _
    rw [ih (releaseItem s it0) (fun it hm => h it (List.mem_cons_of_mem it0 hm))]
    exact releaseItem_lookup_ne s it0 k (h it0 (List.mem_cons_self it0 rest))

/-- Effect of releasing one item whose row exists with a materialized
reserved count covering the requested quantity. -/
theorem releaseItem_effect (s : InvStore) (it : OrderItem) (w : String)
    (inv : Inventory) (r : Int)
    (hw : it.warehouseId = some w)
    (hlk : lookupInv s (it.productId, w) = some inv)
    (hr : inv.reserved = some r) (hq : it.quantity ≤ r) :
    releaseItem s it =
      setInv s (it.productId, w) ⟨inv.quantity, some (r - it.quantity), inv.version + 1⟩ := by
  have hrv : reservedOf inv = r := by rw [reservedOf, hr]; rfl
  rw [releaseItem_some s it w hw, hlk]
  show (match release (some inv) it.quantity inv.version with
    | none => s
    | some inv' => setInv s (it.productId, w) inv') = _
  rw [release_some, if_pos ⟨rfl, Or.inr (by rw [hrv]; exact hq)⟩, hrv]

/-- Releasing the items of an order, when their keys are pairwise
distinct and every row exists with a materialized reserved count covering
the requested quantity, decrements each item's reserved count by the item
quantity (and bumps the version). -/
theorem releaseItems_effect :
    ∀ (items : List OrderItem) (s : InvStore),
      items.Pairwise (fun a b => itemKey a ≠ itemKey b) →
      (∀ it ∈ items, ∃ w inv r, it.warehouseId = some w ∧
        lookupInv s (it.productId, w) = some inv ∧ inv.reserved = some r ∧
        it.quantity ≤ r) →
      ∀ it ∈ items, ∃ w inv r, it.warehouseId = some w ∧
        lookupInv s (it.productId, w) = some inv ∧ inv.reserved = some r ∧
        lookupInv (releaseItems s items) (it.productId, w) =
          some ⟨inv.quantity, some (r - it.quantity), inv.version + 1⟩ := by
  intro items
  induction items with
  | nil => intro s _ _ it hm; cases hm
  | cons it0 rest ih =>
    intro s hnd hok it hm
    cases hnd with
    | cons hnd0 hndrest =>
      have hkeyne : ∀ it' ∈ rest, ∀ w w', it0.warehouseId = some w →
          it'.warehouseId = some w' → (it'.productId, w') ≠ (it0.productId, w) := by
        intro it' hm' w w' hw hw' hh
        have h0 : itemKey it0 = some (it0.productId, w) := by simp [itemKey, hw]
        have h1 : itemKey it' = some (it'.productId, w') := by simp [itemKey, hw']
        exact hnd0 it' hm' (by rw [h0, h1, hh])
      cases hm with
      | head =>
        obtain ⟨w, inv, r, hw, hlk, hr, hq⟩ := hok it0 (List.mem_cons_self it0 rest)
        refine ⟨w, inv, r, hw, hlk, hr, ?_⟩
        show lookupInv (releaseItems (releaseItem s it0) rest) (it0.productId, w) =
          some ⟨inv.quantity, some (r - it0.quantity), inv.version + 1⟩
        rw [releaseItems_lookup_ne rest (releaseItem s it0) (it0.productId, w)
          (fun it' hm' w' hw' => hkeyne it' hm' w w' hw hw')]
        rw [releaseItem_effect s it0 w inv r hw hlk hr hq]
        exact lookupInv_set_self s (it0.productId, w) _ inv hlk
      | tail _ hmr =>
        have hne : ∀ it' ∈ rest, ∀ w, it'.warehouseId = some w →
            lookupInv (releaseItem s it0) (it'.productId, w) =
              lookupInv s (it'.productId, w) := by
          intro it' hm' w hw
          exact releaseItem_lookup_ne s it0 (it'.productId, w)
            (fun w0 hw0 hh => hkeyne it' hm' w0 w hw0 hw hh.symm)
        have hok' : ∀ it' ∈ rest, ∃ w inv r, it'.warehouseId = some w ∧
            lookupInv (releaseItem s it0) (it'.productId, w) = some inv ∧
            inv.reserved = some r ∧ it'.quantity ≤ r := by
          intro it' hm'
          obtain ⟨w, inv, r, hw, hlk, hr, hq⟩ := hok it' (List.mem_cons_of_mem it0 hm')
          exact ⟨w, inv, r, hw, by rw [hne it' hm' w hw]; exact hlk, hr, hq⟩
        obtain ⟨w, inv, r, hw, hlk', hr, hfin⟩ := ih (releaseItem s it0) hndrest hok' it hmr
        refine ⟨w, inv, r, hw, ?_, hr, hfin⟩
        rw [← hne it hmr w hw]
        exact hlk'

/-! ## Abandoned-cart reaper (scheduled/cleanup-abandoned-carts/index.ts) -/

/-- Condition under which a tick cancels an order (lines 75-87): status
INVENTORY_RESERVED (the status query only returns such orders),
paymentStatus pending, and age strictly greater than the configured
timeout.  Ages are compared exactly: ageMinutes > timeoutMin is
now − createdAt > timeoutMin·60000 ms. -/
def abandonedCond (now timeoutMin : Int) (o : Order) : Prop :=
  o.status = .inventoryReserved ∧ o.paymentStatus = some .pending ∧
    timeoutMin * 60000 < now - o.createdAtMs

instance (now timeoutMin : Int) (o : Order) : Decidable (abandonedCond now timeoutMin o) := by
  unfold abandonedCond; infer_instance

/-- Order row written by processAbandonedOrder (lines 262-272): status
CANCELLED and metadata.cancelReason ABANDONED_CART (cancelledAt and
abandonedAfterMinutes are timestamps, elided). -/
def cancelAbandoned (o : Order) : Order :=
  { o with status := .cancelled,
           metadata := { o.metadata with cancelReason := some "ABANDONED_CART" } }

/-- Order row produced by one tick for one order (handler lines 75-146):
orders outside the INVENTORY_RESERVED query or with non-pending payment
are untouched; overdue orders are cancelled; otherwise, with reminders
on, an order past the reminder threshold that has not yet received one
gets metadata.reminderEmailSent set (the email itself is elided and
assumed delivered; a failed send skips this write and never blocks
anything). -/
def reaperOrderResult (now timeoutMin : Int) (remindersOn : Bool) (o : Order) : Order :=
  if o.status ≠ OrderStatus.inventoryReserved then o
  else if o.paymentStatus ≠ some PaymentStatus.pending then o
  else if timeoutMin * 60000 < now - o.createdAtMs then cancelAbandoned o
  else if remindersOn = true ∧ (timeoutMin - 5) * 60000 ≤ now - o.createdAtMs ∧
      o.metadata.reminderEmailSent = false then
    { o with metadata := { o.metadata with reminderEmailSent := true } }
  else o

/-- Inventory writes of one tick for one order: the release loop of
processAbandonedOrder runs exactly for the overdue orders. -/
def reaperStoreResult (now timeoutMin : Int) (o : Order) (s : InvStore) : InvStore :=
  if abandonedCond now timeoutMin o then releaseItems s o.items else s

/-- One order processed by a tick: the pair of the row it leaves and the
inventory writes it makes. -/
def reaperOrderStep (now timeoutMin : Int) (remindersOn : Bool) (o : Order)
    (s : InvStore) : Order × InvStore :=
  (reaperOrderResult now timeoutMin remindersOn o, reaperStoreResult now timeoutMin o s)

/-- One reaper tick over the listed orders, threading the inventory
table through the per-order processing in list order. -/
def reaperTick (now timeoutMin : Int) (remindersOn : Bool) :
    List Order → InvStore → List Order × InvStore
  | [], s => ([], s)
  | o :: rest, s =>
    let p := reaperOrderStep now timeoutMin remindersOn o s
    let q := reaperTick now timeoutMin remindersOn rest p.2
    (p.1 :: q.1, q.2)

/-- C8: on a tick, exactly the orders with status INVENTORY_RESERVED,
paymentStatus pending and age beyond the timeout are transitioned to
CANCELLED with metadata.cancelReason ABANDONED_CART, and (for
pairwise-distinct item keys backed by rows with enough reserved) each of
their items' reservations is released; every order missing one of the
three conditions keeps its status. -/
theorem c8_reaper_tick (now timeoutMin : Int) (remindersOn : Bool)
    (orders : List Order) (s : InvStore) (o : Order) :
    ((reaperTick now timeoutMin remindersOn orders s).1 =
      orders.map (reaperOrderResult now timeoutMin remindersOn)) ∧
    (¬ abandonedCond now timeoutMin o →
      (reaperOrderResult now timeoutMin remindersOn o).status = o.status) ∧
    (abandonedCond now timeoutMin o →
      (reaperOrderResult now timeoutMin remindersOn o).status = .cancelled ∧
      (reaperOrderResult now timeoutMin remindersOn o).metadata.cancelReason =
        some "ABANDONED_CART" ∧
      reaperStoreResult now timeoutMin o s = releaseItems s o.items ∧
      (o.items.Pairwise (fun a b => itemKey a ≠ itemKey b) →
        (∀ it ∈ o.items, ∃ w inv r, it.warehouseId = some w ∧
          lookupInv s (it.productId, w) = some inv ∧ inv.reserved = some r ∧
          it.quantity ≤ r) →
        ∀ it ∈ o.items, ∃ w inv r, it.warehouseId = some w ∧
          lookupInv s (it.productId, w) = some inv ∧ inv.reserved = some r ∧
          lookupInv (reaperStoreResult now timeoutMin o s) (it.productId, w) =
            some ⟨inv.quantity, some (r - it.quantity), inv.version + 1⟩)) := by
  refine ⟨?_, ?_, ?_⟩
  · induction orders generalizing s with
    | nil => rfl
    | cons o0 rest ih =>
      show (reaperOrderResult now timeoutMin remindersOn o0 ::
        (reaperTick now timeoutMin remindersOn rest
          (reaperStoreResult now timeoutMin o0 s)).1) = _
      rw [List.map_cons, ih]
  · intro hno
    unfold reaperOrderResult
    by_cases h1 : o.status ≠ OrderStatus.inventoryReserved
    · rw [if_pos h1]
    · rw [if_neg h1]
      by_cases h2 : o.paymentStatus ≠ some PaymentStatus.pending
      · rw [if_pos h2]
      · rw [if_neg h2]
        by_cases h3 : timeoutMin * 60000 < now - o.createdAtMs
        · exact absurd ⟨not_not.mp h1, not_not.mp h2, h3⟩ hno
        · rw [if_neg h3]
          by_cases h4 : remindersOn = true ∧ (timeoutMin - 5) * 60000 ≤ now - o.createdAtMs ∧
              o.metadata.reminderEmailSent = false
          · rw [if_pos h4]
          · rw [if_neg h4]
  · intro hab
    obtain ⟨h1, h2, h3⟩ := hab
    have hres : reaperOrderResult now timeoutMin remindersOn o = cancelAbandoned o := by
      unfold reaperOrderResult
      rw [if_neg (by simp [h1]), if_neg (by simp [h2]), if_pos h3]
    have hst : reaperStoreResult now timeoutMin o s = releaseItems s o.items := by
      unfold reaperStoreResult
      rw [if_pos ⟨h1, h2, h3⟩]
    refine ⟨by rw [hres]; rfl, by rw [hres]; rfl, hst, ?_⟩
    intro hnd hok
    rw [hst]
    exact releaseItems_effect o.items s hnd hok

/-- Reserved order that has sat unpaid past the timeout, and the matching
inventory row. -/
def sampleAbandonedOrder : Order :=
  { sampleReservedOrder with createdAtMs := 0 }

/-- Inventory table holding the single row the sample orders reserve
against. -/
def sampleStore : InvStore :=
  [(("P1", "warehouse-east"), ⟨100, some 2, 6⟩)]

/-- Witness for c8_reaper_tick: a 31-minute-old reserved pending order is
cancelled with reason ABANDONED_CART and its reservation of 2 released. -/
theorem c8_reaper_tick_witness :
    (reaperTick 1860000 30 false [sampleAbandonedOrder] sampleStore).1 =
      [sampleAbandonedOrder].map (reaperOrderResult 1860000 30 false) ∧
    (reaperOrderResult 1860000 30 false sampleAbandonedOrder).status = .cancelled ∧
    (∀ it ∈ sampleAbandonedOrder.items, ∃ w inv r, it.warehouseId = some w ∧
      lookupInv sampleStore (it.productId, w) = some inv ∧ inv.reserved = some r ∧
      lookupInv (reaperStoreResult 1860000 30 sampleAbandonedOrder sampleStore)
          (it.productId, w) =
        some ⟨inv.quantity, some (r - it.quantity), inv.version + 1⟩) := by
  have h := c8_reaper_tick 1860000 30 false [sampleAbandonedOrder] sampleStore
    sampleAbandonedOrder
  have hab : abandonedCond 1860000 30 sampleAbandonedOrder := by decide
  obtain ⟨htick, -, hcond⟩ := h
  obtain ⟨hstat, hreason, hst, heff⟩ := hcond hab
  refine ⟨htick, hstat, heff (by decide) ?_⟩
  intro it hm
  simp only [sampleAbandonedOrder, sampleReservedOrder, List.mem_singleton] at hm
  subst hm
  exact ⟨"warehouse-east", ⟨100, some 2, 6⟩, 2, rfl, by decide, rfl, by decide⟩

/-! ## ReserveInventory step (stepfunctions/reserve-inventory/index.ts) -/

/-- Output row of the reserve-inventory step for one item. -/
structure ReservedItem where
  productId : String
  productName : String
  quantity : Int
  warehouseId : String
  deriving Repr, DecidableEq

/-- Warehouse selection and reservation for one item (lines 82-166),
sequential model: the rows for the product are scanned in index order and
rows with quantity − reserved < requested are skipped (reserved read with
the 0 default); the first candidate is re-read for a fresh version and
reserved.  With no concurrent writer the re-read shows the same row and
the conditional write succeeds, so the retry/next-candidate paths
collapse.  `none` means no warehouse could satisfy the item and the
handler throws. -/
def tryReserveItem (s : InvStore) (it : OrderItem) : Option (InvStore × ReservedItem) :=
  match (s.filter (fun e => decide (e.1.1 = it.productId))).find?
      (fun e => decide (it.quantity ≤ e.2.quantity - reservedOf e.2)) with
  | none => none
  | some (k, inv) =>
    match reserve (some inv) it.quantity inv.version with
    | none => none
    | some inv' => some (setInv s k inv', ⟨it.productId, it.productName, it.quantity, k.2⟩)

/-- Per-item reservation loop (lines 82-179): items in order; the first
item that no warehouse can satisfy throws, keeping every inventory write
already made; `.error` carries the failing productId. -/
def reserveOrderItems (s : InvStore) :
    List OrderItem → InvStore × Except String (List ReservedItem)
  | [] => (s, .ok [])
  | it :: rest =>
    match tryReserveItem s it with
    | none => (s, .error it.productId)
    | some (s1, r) =>
      match reserveOrderItems s1 rest with
      | (s2, .ok rs) => (s2, .ok (r :: rs))
      | (s2, .error e) => (s2, .error e)

/-- Equation lemma for the loop on a cons cell. -/
theorem reserveOrderItems_cons (s : InvStore) (it0 : OrderItem) (rest : List OrderItem) :
    reserveOrderItems s (it0 :: rest) =
      match tryReserveItem s it0 with
      | none => (s, .error it0.productId)
      | some (s1, r) =>
        match reserveOrderItems s1 rest with
        | (s2, .ok rs) => (s2, .ok (r :: rs))
        | (s2, .error e) => (s2, .error e) := rfl

/-- Items with the chosen warehouseIds persisted (lines 183-192). -/
def applyWarehouses (items : List OrderItem) (rs : List ReservedItem) : List OrderItem :=
  items.map (fun it =>
    match rs.find? (fun r => decide (r.productId = it.productId)) with
    | some r => { it with warehouseId := some r.warehouseId }
    | none => it)

/-- reserve-inventory handler (lines 32-210).  Returns the step result,
the single Orders-table write (none when the handler wrote nothing), and
the final inventory table.  An INVENTORY_RESERVED order replays
idempotently (items echoed with the warehouse-east fallback); any other
non-PENDING status throws; a PENDING order is reserved item by item, and
only after every item succeeded is the order written once, persisting the
warehouseIds and the INVENTORY_RESERVED status together. -/
def reserveInventoryHandler (order? : Option Order) (s : InvStore) :
    Except String (List ReservedItem) × Option Order × InvStore :=
  match order? with
  | none => (.error "Order not found", none, s)
  | some order =>
    if order.status = OrderStatus.inventoryReserved then
      (.ok (order.items.map (fun it =>
         ⟨it.productId, it.productName, it.quantity, it.warehouseId.getD "warehouse-east"⟩)),
       none, s)
    else if order.status ≠ OrderStatus.pending then
      (.error "Cannot reserve inventory", none, s)
    else
      match reserveOrderItems s order.items with
      | (s1, .error e) => (.error ("Insufficient inventory for product " ++ e), none, s1)
      | (s1, .ok rs) =>
        (.ok rs,
         some { order with status := .inventoryReserved,
                           items := applyWarehouses order.items rs },
         s1)

/-- Helper: a successfully reserved prefix followed by an unsatisfiable
item makes the loop stop at that item with the prefix's writes in place. -/
theorem reserveOrderItems_append_fail :
    ∀ (pre : List OrderItem) (s s' : InvStore) (rs : List ReservedItem),
      reserveOrderItems s pre = (s', .ok rs) →
      ∀ (failItem : OrderItem) (rest : List OrderItem),
        tryReserveItem s' failItem = none →
        reserveOrderItems s (pre ++ failItem :: rest) = (s', .error failItem.productId) := by
  intro pre
  induction pre with
  | nil =>
    intro s s' rs h2 failItem rest h3
    injection h2 with hs hrs
    subst hs
    rw [List.nil_append, reserveOrderItems_cons, h3]
  | cons it0 pre' ih =>
    intro s s' rs h2 failItem rest h3
    rw [reserveOrderItems_cons] at h2
    rw [List.cons_append, reserveOrderItems_cons]
    cases htr : tryReserveItem s it0 with
    | none =>
      rw [htr] at h2
      exact absurd h2 (by simp)
    | some p =>
      obtain ⟨s1, r⟩ := p
      rw [htr] at h2
      have h2' : (match reserveOrderItems s1 pre' with
        | (s2, Except.ok rs) => (s2, Except.ok (r :: rs))
        | (s2, Except.error e) => (s2, Except.error e)) = (s', Except.ok rs) := h2
      cases hrec : reserveOrderItems s1 pre' with
      | mk s2 res =>
        rw [hrec] at h2'
        cases res with
        | error e => exact absurd h2' (by simp)
        | ok rs2 =>
          have hs2 : s2 = s' := by simpa using congrArg Prod.fst h2'
          subst hs2
          show (match reserveOrderItems s1 (pre' ++ failItem :: rest) with
            | (s2, Except.ok rs) => (s2, Except.ok (r :: rs))
            | (s2, Except.error e) => (s2, Except.error e)) = _
          rw [ih s1 _ rs2 hrec failItem rest h3]

/-- C10: when the reservation loop fails on some item of a multi-item
PENDING order, the handler throws the insufficient-inventory error
without writing the order row (no status change, no warehouseIds
persisted), and the inventory table keeps exactly the reservations
already made for the earlier items — the step performs no rollback of its
own partial work. -/
theorem c10_no_rollback (order : Order) (s s' : InvStore)
    (pre rest : List OrderItem) (failItem : OrderItem) (rs : List ReservedItem)
    (h0 : order.status = .pending)
    (h1 : order.items = pre ++ failItem :: rest)
    (h2 : reserveOrderItems s pre = (s', .ok rs))
    (h3 : tryReserveItem s' failItem = none) :
    reserveInventoryHandler (some order) s =
      (.error ("Insufficient inventory for product " ++ failItem.productId), none, s') := by
  show (if order.status = OrderStatus.inventoryReserved then _ else _) = _
  rw [if_neg (by simp [h0]), if_neg (by simp [h0]), h1,
    reserveOrderItems_append_fail pre s s' rs h2 failItem rest h3]

/-- Two-item PENDING order whose second item cannot be satisfied. -/
def c10Order : Order :=
  { orderId := "O2"
    status := .pending
    items := [⟨"P1", "Widget", 2, 1999, 3998, none⟩, ⟨"P2", "Gadget", 5, 500, 2500, none⟩]
    totalAmount := 6498
    paymentIntentId := none
    paymentStatus := some .pending
    trackingNumber := none
    estimatedDelivery := none
    createdAtMs := 0
    metadata := ⟨none, none, false⟩ }

/-- Inventory for c10Order: P1 has stock, P2 has only 3 on hand. -/
def c10Store : InvStore :=
  [(("P1", "W1"), ⟨10, some 0, 1⟩), (("P2", "W1"), ⟨3, some 0, 1⟩)]

/-- Witness for c10_no_rollback: the handler throws on P2, the order row
is not written, and P1's reservation of 2 (written before the failure)
stays in the table. -/
theorem c10_no_rollback_witness :
    reserveInventoryHandler (some c10Order) c10Store =
      (.error ("Insufficient inventory for product " ++ "P2"), none,
       [(("P1", "W1"), ⟨10, some 2, 2⟩), (("P2", "W1"), ⟨3, some 0, 1⟩)]) :=
  c10_no_rollback c10Order c10Store
    [(("P1", "W1"), ⟨10, some 2, 2⟩), (("P2", "W1"), ⟨3, some 0, 1⟩)]
    [⟨"P1", "Widget", 2, 1999, 3998, none⟩] [] ⟨"P2", "Gadget", 5, 500, 2500, none⟩
    [⟨"P1", "Widget", 2, "W1"⟩] rfl rfl rfl rfl

/-! ## Compensation handler (compensation lambda, admin-auth bundle lines 433-589) -/

/-- Local of the compensation handler (lines 453-456): statuses whose
inventory must be released. -/
def needsInventoryRelease (order : Order) : Prop :=
  order.status = OrderStatus.inventoryReserved ∨
    order.status = OrderStatus.paymentConfirmed ∨
    order.status = OrderStatus.shippingAllocated

instance (order : Order) : Decidable (needsInventoryRelease order) := by
  unfold needsInventoryRelease; infer_instance

/-- Local of the compensation handler (lines 458-460): statuses whose
payment must be refunded. -/
def needsPaymentRefund (order : Order) : Prop :=
  order.status = OrderStatus.paymentConfirmed ∨
    order.status = OrderStatus.shippingAllocated

instance (order : Order) : Decidable (needsPaymentRefund order) := by
  unfold needsPaymentRefund; infer_instance

/-- Release loop of the compensation handler (releaseInventory, lines
545-589): unlike the reaper/admin loop it defaults a missing warehouseId
to warehouse-east.  `failSet` injects per-item transient failures of the
get/release calls; they are caught, logged and the loop continues with
the next item. -/
def compReleaseItem (failSet : List String) (s : InvStore) (it : OrderItem) : InvStore :=
  if it.productId ∈ failSet then s
  else
    match lookupInv s (it.productId, it.warehouseId.getD "warehouse-east") with
    | none => s
    | some inv =>
      match release (some inv) it.quantity inv.version with
      | none => s
      | some inv' => setInv s (it.productId, it.warehouseId.getD "warehouse-east") inv'

/-- Sequential compensation release of every item. -/
def compReleaseItems (failSet : List String) (s : InvStore) : List OrderItem → InvStore
  | [] => s
  | it :: rest => compReleaseItems failSet (compReleaseItem failSet s it) rest

/-- Row state after refundPayment (lines 507-539): a refund happens only
when the handler decided to refund, the order holds a payment intent and
the provider call succeeds; only then is paymentStatus set to refunded.
A failed refund is caught and changes nothing. -/
def compRefundTarget (order : Order) (refundOk : Bool) : Order :=
  if needsPaymentRefund order ∧ order.paymentIntentId ≠ none ∧ refundOk = true then
    { order with paymentStatus := some .refunded }
  else order

/-- Result payload of the compensation handler. -/
structure CompOutput where
  success : Bool
  compensatedSteps : List String
  finalStatus : String
  deriving Repr, DecidableEq

/-- Compensation handler (lines 433-502).  The function is total — the
outer try/catch turns every failure into a degraded result, so the
handler never raises to its caller.  `refundOk` injects a provider refund
failure, `failSet` per-item release failures, `finalUpdateOk` a failure
of the final CANCELLED write (the only uncaught-then-caught step).  The
second component is the resulting order row, the third the resulting
inventory table.  PAYMENT_REFUNDED / INVENTORY_RELEASED are pushed onto
compensatedSteps when the corresponding phase runs, whether or not its
calls succeeded. -/
def compensationHandler (order? : Option Order) (s : InvStore) (refundOk : Bool)
    (failSet : List String) (finalUpdateOk : Bool) :
    CompOutput × Option Order × InvStore :=
  match order? with
  | none => (⟨false, [], "COMPENSATION_FAILED"⟩, none, s)
  | some order =>
    let orderAfterRefund := compRefundTarget order refundOk
    let steps :=
      (if needsPaymentRefund order then ["PAYMENT_REFUNDED"] else []) ++
      (if needsInventoryRelease order then ["INVENTORY_RELEASED"] else [])
    let s1 := if needsInventoryRelease order then compReleaseItems failSet s order.items else s
    if finalUpdateOk then
      (⟨true, steps, "CANCELLED"⟩, some { orderAfterRefund with status := .cancelled }, s1)
    else
      (⟨false, steps, "COMPENSATION_FAILED"⟩, some orderAfterRefund, s1)

/-- C6 counterexample: on a PAYMENT_CONFIRMED order whose provider refund
FAILS (a partial failure within compensation), the handler still reports
success true with PAYMENT_REFUNDED among the compensated steps — not the
claimed degraded success-false result — while the row's paymentStatus
stays succeeded. -/
theorem c6_refund_failure_counterexample :
    (compensationHandler (some samplePaidOrder) sampleStore false [] true).1 =
      ⟨true, ["PAYMENT_REFUNDED", "INVENTORY_RELEASED"], "CANCELLED"⟩ ∧
    (compensationHandler (some samplePaidOrder) sampleStore false [] true).2.1.map
        (fun o => o.paymentStatus) = some (some .succeeded) := by
  decide

/-- C6 (amended): the handler never raises (it is total, returning a
degraded result instead); a refund failure does not prevent the
inventory release or the CANCELLED transition (the resulting table and
the cancelled row are independent of the refund outcome, though a
successful run still reports success true); per-item release failures
are skipped and the loop continues; the final CANCELLED transition is
attempted whenever the order exists; success false together with the
already-compensated steps is returned exactly when the final write
itself fails. -/
theorem c6_compensation_policy (order : Order) (s : InvStore) (refundOk : Bool)
    (failSet : List String) :
    ((compensationHandler (some order) s false failSet true).2.2 =
      (compensationHandler (some order) s true failSet true).2.2) ∧
    ((compensationHandler (some order) s refundOk failSet true).2.1.map
        (fun o => o.status) = some .cancelled) ∧
    ((compensationHandler (some order) s refundOk failSet true).1.success = true) ∧
    ((compensationHandler (some order) s refundOk failSet false).1.success = false) ∧
    ((compensationHandler (some order) s refundOk failSet false).1.compensatedSteps =
      (compensationHandler (some order) s refundOk failSet true).1.compensatedSteps) ∧
    (∀ (it : OrderItem) (rest : List OrderItem) (s' : InvStore),
      it.productId ∈ failSet →
        compReleaseItems failSet s' (it :: rest) = compReleaseItems failSet s' rest) := by
  refine ⟨rfl, rfl, rfl, rfl, rfl, ?_⟩
  intro it rest s' hm
  show compReleaseItems failSet (compReleaseItem failSet s' it) rest =
    compReleaseItems failSet s' rest
  rw [show compReleaseItem failSet s' it = s' from by unfold compReleaseItem; rw [if_pos hm]]

/-- Witness for c6_compensation_policy: a release failure injected for P1
makes the loop skip that item. -/
theorem c6_compensation_policy_witness :
    compReleaseItems ["P1"] sampleStore
        [⟨"P1", "Widget", 2, 1999, 3998, some "warehouse-east"⟩] =
      compReleaseItems ["P1"] sampleStore [] :=
  (c6_compensation_policy samplePaidOrder sampleStore true ["P1"]).2.2.2.2.2
    ⟨"P1", "Widget", 2, 1999, 3998, some "warehouse-east"⟩ [] sampleStore
    (by decide)

/-! ## Admin cancellation endpoint (api/admin-cancel-order/index.ts) -/

/-- Row state after the admin refund phase (lines 100-119): refund when
the order holds an intent and its paymentStatus is succeeded; the
provider refund is assumed to succeed here (a failure is caught and only
changes the reported operations), and paymentStatus is then set to
refunded through updatePaymentInfo. -/
def adminRefundTarget (order : Order) : Order :=
  if order.paymentIntentId ≠ none ∧ order.paymentStatus = some PaymentStatus.succeeded then
    updatePaymentInfo order none .refunded
  else order

/-- Statuses for which the admin endpoint releases inventory (line 122):
INVENTORY_RESERVED or PAYMENT_CONFIRMED — SHIPPING_ALLOCATED never
reaches this point because it is rejected earlier. -/
def adminNeedsRelease (order : Order) : Prop :=
  order.status = OrderStatus.inventoryReserved ∨
    order.status = OrderStatus.paymentConfirmed

instance (order : Order) : Decidable (adminNeedsRelease order) := by
  unfold adminNeedsRelease; infer_instance

/-- Admin cancellation handler (lines 28-206), sequential all-success
model.  POST /admin/orders/{orderId}/cancel: 404 for a missing order, 400
for an already CANCELLED order and for SHIPPING_ALLOCATED (both without
writing anything); otherwise refund when applicable, release the
reserved items (the same loop as the reaper: items without a warehouseId
are skipped), and write CANCELLED with the cancel metadata.  `.ok`
carries the reported operations list. -/
def adminCancelOrder (order? : Option Order) (s : InvStore) (reason : String) :
    Except String (List String) × Option Order × InvStore :=
  match order? with
  | none => (.error "Not Found", none, s)
  | some order =>
    if order.status = OrderStatus.cancelled then
      (.error "Order is already cancelled", some order, s)
    else if order.status = OrderStatus.shippingAllocated then
      (.error "Cannot cancel order that has already been shipped", some order, s)
    else
      let orderAfterRefund := adminRefundTarget order
      let ops :=
        (if order.paymentIntentId ≠ none ∧ order.paymentStatus = some PaymentStatus.succeeded
         then ["payment_refunded"] else []) ++
        (if adminNeedsRelease order then ["inventory_released"] else [])
      let s1 := if adminNeedsRelease order then releaseItems s order.items else s
      (.ok (ops ++ ["order_cancelled"]),
       some { orderAfterRefund with
              status := .cancelled,
              metadata := { orderAfterRefund.metadata with
                            cancelReason := some reason,
                            cancelledBy := some "admin" } },
       s1)

/-- Terminal-success order, for the SHIPPING_ALLOCATED comparison. -/
def sampleShippedOrder : Order :=
  { samplePaidOrder with status := .shippingAllocated }

/-- C9 counterexample: on a SHIPPING_ALLOCATED order the admin endpoint
rejects the request and changes nothing, while the compensation handler
refunds, releases the reservation and cancels — so the claimed
equivalence of effects (including the SHIPPING_ALLOCATED case) is false. -/
theorem c9_shipping_allocated_counterexample :
    (adminCancelOrder (some sampleShippedOrder) sampleStore "fraud").2.1.map
        (fun o => o.status) = some .shippingAllocated ∧
    (adminCancelOrder (some sampleShippedOrder) sampleStore "fraud").2.2 = sampleStore ∧
    (compensationHandler (some sampleShippedOrder) sampleStore true [] true).2.1.map
        (fun o => o.status) = some .cancelled ∧
    (compensationHandler (some sampleShippedOrder) sampleStore true [] true).2.1.map
        (fun o => o.paymentStatus) = some (some .refunded) ∧
    lookupInv (compensationHandler (some sampleShippedOrder) sampleStore true [] true).2.2
        ("P1", "warehouse-east") = some ⟨100, some 0, 7⟩ := by
  decide

/-- Helper: with no injected failures and every item carrying a
warehouseId, the compensation release loop coincides with the
reaper/admin release loop (the only difference is the warehouse-east
fallback for items without one). -/
theorem compReleaseItems_eq_releaseItems :
    ∀ (items : List OrderItem) (s : InvStore),
      (∀ it ∈ items, it.warehouseId ≠ none) →
      compReleaseItems [] s items = releaseItems s items := by
  intro items
  induction items with
  | nil => intro s _; rfl
  | cons it rest ih =>
    intro s h
    show compReleaseItems [] (compReleaseItem [] s it) rest =
      releaseItems (releaseItem s it) rest
    have hit : compReleaseItem [] s it = releaseItem s it := by
      cases hw : it.warehouseId with
      | none => exact absurd hw (h it (List.mem_cons_self it rest))
      | some w =>
        unfold compReleaseItem
        rw [if_neg (by simp), hw, releaseItem_some s it w hw]
        rfl
    rw [hit, ih (releaseItem s it) (fun it' hm => h it' (List.mem_cons_of_mem it hm))]

/-- Helper equation: the admin handler past its guard clauses. -/
theorem adminCancelOrder_main (order : Order) (s : InvStore) (reason : String)
    (h1 : order.status ≠ OrderStatus.cancelled)
    (h2 : order.status ≠ OrderStatus.shippingAllocated) :
    adminCancelOrder (some order) s reason =
      (.ok ((if order.paymentIntentId ≠ none ∧
               order.paymentStatus = some PaymentStatus.succeeded
             then ["payment_refunded"] else []) ++
            (if adminNeedsRelease order then ["inventory_released"] else []) ++
            ["order_cancelled"]),
       some { adminRefundTarget order with
              status := .cancelled,
              metadata := { (adminRefundTarget order).metadata with
                            cancelReason := some reason,
                            cancelledBy := some "admin" } },
       if adminNeedsRelease order then releaseItems s order.items else s) := by
  show (if order.status = OrderStatus.cancelled then _ else _) = _
  rw [if_neg h1]
  show (if order.status = OrderStatus.shippingAllocated then _ else _) = _
  rw [if_neg h2]

/-- C9 (amended): the admin endpoint reimplements the compensation
sequence inline rather than invoking the handler; the effects on the
order row (final status, paymentStatus) and on the inventory rows agree
with the compensation handler's whenever the order is not
SHIPPING_ALLOCATED (which the endpoint rejects with a 400 and leaves
untouched, unlike compensation), the order holds a succeeded payment
with an intent exactly when it is PAYMENT_CONFIRMED, and every item
carries a warehouseId (compensation would otherwise guess the
warehouse-east fallback where the endpoint skips the item).  The
CANCELLED case is an idempotent no-op on both sides. -/
theorem c9_admin_cancel_equiv (order : Order) (s : InvStore) (reason : String)
    (h1 : order.status ≠ .shippingAllocated)
    (h2 : (order.paymentIntentId ≠ none ∧
        order.paymentStatus = some PaymentStatus.succeeded) ↔
      order.status = .paymentConfirmed)
    (h3 : ∀ it ∈ order.items, it.warehouseId ≠ none) :
    ((adminCancelOrder (some order) s reason).2.1.map (fun o => o.status) =
      (compensationHandler (some order) s true [] true).2.1.map (fun o => o.status)) ∧
    ((adminCancelOrder (some order) s reason).2.1.map (fun o => o.paymentStatus) =
      (compensationHandler (some order) s true [] true).2.1.map (fun o => o.paymentStatus)) ∧
    ((adminCancelOrder (some order) s reason).2.2 =
      (compensationHandler (some order) s true [] true).2.2) := by
  have hrel := compReleaseItems_eq_releaseItems order.items s h3
  by_cases hc : order.status = OrderStatus.cancelled
  · have ha : adminCancelOrder (some order) s reason =
        (.error "Order is already cancelled", some order, s) := by
      show (if order.status = OrderStatus.cancelled then _ else _) = _
      rw [if_pos hc]
    have hnpr : ¬ needsPaymentRefund order := by
      intro hd
      rcases hd with hd | hd <;> rw [hc] at hd <;> cases hd
    have hnir : ¬ needsInventoryRelease order := by
      intro hd
      rcases hd with hd | hd | hd <;> rw [hc] at hd <;> cases hd
    have hrt : compRefundTarget order true = order := by
      unfold compRefundTarget
      rw [if_neg (fun hd => hnpr hd.1)]
    refine ⟨?_, ?_, ?_⟩
    · rw [ha]
      show some order.status = some OrderStatus.cancelled
      rw [hc]
    · rw [ha]
      show some order.paymentStatus = some ((compRefundTarget order true).paymentStatus)
      rw [hrt]
    · rw [ha]
      show s = (if needsInventoryRelease order then compReleaseItems [] s order.items else s)
      rw [if_neg hnir]
  · have ha := adminCancelOrder_main order s reason hc h1
    by_cases hpc : order.status = OrderStatus.paymentConfirmed
    · have hd := h2.mpr hpc
      have hart : adminRefundTarget order = updatePaymentInfo order none .refunded := by
        unfold adminRefundTarget
        rw [if_pos hd]
      have hcrt : compRefundTarget order true =
          { order with paymentStatus := some .refunded } := by
        unfold compRefundTarget
        rw [if_pos ⟨Or.inl hpc, hd.1, rfl⟩]
      refine ⟨?_, ?_, ?_⟩
      · rw [ha]
        rfl
      · rw [ha]
        show some ((adminRefundTarget order).paymentStatus) =
          some ((compRefundTarget order true).paymentStatus)
        rw [hart, hcrt]
        rfl
      · rw [ha]
        show (if adminNeedsRelease order then releaseItems s order.items else s) =
          (if needsInventoryRelease order then compReleaseItems [] s order.items else s)
        rw [if_pos (show adminNeedsRelease order from Or.inr hpc),
          if_pos (show needsInventoryRelease order from Or.inr (Or.inl hpc)), hrel]
    · have hnd : ¬ (order.paymentIntentId ≠ none ∧
          order.paymentStatus = some PaymentStatus.succeeded) :=
        fun hd => hpc (h2.mp hd)
      have hart : adminRefundTarget order = order := by
        unfold adminRefundTarget
        rw [if_neg hnd]
      have hcrt : compRefundTarget order true = order := by
        unfold compRefundTarget
        refine if_neg (fun hd => ?_)
        rcases hd.1 with hx | hx
        · exact hpc hx
        · exact h1 hx
      refine ⟨?_, ?_, ?_⟩
      · rw [ha]
        rfl
      · rw [ha]
        show some ((adminRefundTarget order).paymentStatus) =
          some ((compRefundTarget order true).paymentStatus)
        rw [hart, hcrt]
      · rw [ha]
        show (if adminNeedsRelease order then releaseItems s order.items else s) =
          (if needsInventoryRelease order then compReleaseItems [] s order.items else s)
        by_cases hirx : order.status = OrderStatus.inventoryReserved
        · rw [if_pos (show adminNeedsRelease order from Or.inl hirx),
            if_pos (show needsInventoryRelease order from Or.inl hirx), hrel]
        · have hn1 : ¬ adminNeedsRelease order := by
            intro hd
            rcases hd with hx | hx
            · exact hirx hx
            · exact hpc hx
          have hn2 : ¬ needsInventoryRelease order := by
            intro hd
            rcases hd with hx | hx | hx
            · exact hirx hx
            · exact hpc hx
            · exact h1 hx
          rw [if_neg hn1, if_neg hn2]

/-- Witness for c9_admin_cancel_equiv at a PAYMENT_CONFIRMED order. -/
theorem c9_admin_cancel_equiv_witness :
    ((adminCancelOrder (some samplePaidOrder) sampleStore "fraud").2.1.map
        (fun o => o.status) =
      (compensationHandler (some samplePaidOrder) sampleStore true [] true).2.1.map
        (fun o => o.status)) ∧
    ((adminCancelOrder (some samplePaidOrder) sampleStore "fraud").2.1.map
        (fun o => o.paymentStatus) =
      (compensationHandler (some samplePaidOrder) sampleStore true [] true).2.1.map
        (fun o => o.paymentStatus)) ∧
    ((adminCancelOrder (some samplePaidOrder) sampleStore "fraud").2.2 =
      (compensationHandler (some samplePaidOrder) sampleStore true [] true).2.2) :=
  c9_admin_cancel_equiv samplePaidOrder sampleStore "fraud" (by decide) (by decide) (by decide)

end ECom
